import Mathlib

/-!
Verification development for the `PlayerTargets` target-pool / hit-resolver
engine of the ss-credits arcade shooter (proximity / dual-color variant,
`src/src/game/Scene.ts`).

Modelling conventions:
* 3D vectors use exact rational coordinates (`Vec3` over `ℚ`); the source's
  floating point arithmetic is embedded as exact arithmetic.
* `Math.random()` draws are embedded as an explicit entropy stream
  (`entropy : List ℚ`) threaded through the state; each call pops one value.
  The source derives the spawn position from `cos`/`sin` of a random angle;
  the model samples the two trigonometric values directly from the stream
  (no claim depends on them lying on the unit circle).
* The Three.js scene graph is embedded as the list of mesh ids currently
  added to it (`scene : List ℕ`); `scene.add` appends, `scene.remove`
  filters the id out.  Fresh mesh ids come from a `nextMeshId` counter.
* The avatar cache is embedded by its key set (`avatarCache : List String`,
  a loaded URL standing for its image), plus the list of network requests
  issued so far (`requests : List String`, one entry per `new Image()` /
  `img.src = url`).  `loadAvatar` is the synchronous part of the promise
  executor; `completeAvatarLoad` is the `onload` callback firing later.
* `target.mesh.material` pulse opacity (`updateTargetPulse`) mutates only a
  render-side material opacity derived from `sin(gameTime*4)`; no claim
  refers to it and it is not part of the embedded state.
-/

namespace SSCredits

/-- Exact 3-component vector, embedding `THREE.Vector3`. -/
structure Vec3 where
  x : ℚ
  y : ℚ
  z : ℚ
deriving DecidableEq, Repr

/-- `THREE.Vector3.add` (componentwise). -/
def Vec3.add (a b : Vec3) : Vec3 := ⟨a.x + b.x, a.y + b.y, a.z + b.z⟩

/-- `THREE.Vector3.multiplyScalar`. -/
def Vec3.smul (k : ℚ) (a : Vec3) : Vec3 := ⟨k * a.x, k * a.y, k * a.z⟩

/-- Squared Euclidean distance.  `THREE.Vector3.distanceTo` is its square
root; the source's comparison `distanceTo p < r` is embedded as
`distSq p < r^2`, equivalent for `r > 0`. -/
def Vec3.distSq (a b : Vec3) : ℚ :=
  (a.x - b.x) ^ 2 + (a.y - b.y) ^ 2 + (a.z - b.z) ^ 2

/-- `type TargetColor = 'red' | 'blue'`. -/
inductive TargetColor where
  | red
  | blue
deriving DecidableEq, Repr

/-- `interface Player` (Scene.ts, proximity variant). -/
structure Player where
  name : String
  rank : ℤ
  country : String
  pp : String
  countryRank : ℤ
  profilePicture : String
  color : TargetColor
deriving DecidableEq, Repr

/-- `interface Target`.  `meshId` embeds the `THREE.Sprite` handle;
`avatarImage` holds the cache key of the avatar if it was cached at spawn. -/
structure Target where
  meshId : ℕ
  position : Vec3
  player : Player
  velocity : Vec3
  alive : Bool
  avatarImage : Option String
  spawnTime : ℚ
deriving DecidableEq, Repr

/-- `interface NamePopup`.  `color` records which entry of the `COLORS`
palette the popup's canvas texture was drawn with (`COLORS[player.color]`);
`scale` embeds the sprite scale mutated by `multiplyScalar`. -/
structure NamePopup where
  meshId : ℕ
  position : Vec3
  scale : Vec3
  color : TargetColor
  name : String
  velocity : Vec3
  lifetime : ℚ
  opacity : ℚ
deriving DecidableEq, Repr

/-- The mutable fields of `class PlayerTargets` plus the embedded scene
graph, entropy stream, request log and fresh-id counter. -/
structure PlayerTargets where
  players : List Player
  targets : List Target
  namePopups : List NamePopup
  avatarCache : List String
  requests : List String
  spawnTimer : ℚ
  playerIndex : ℕ
  gameTime : ℚ
  scene : List ℕ
  nextMeshId : ℕ
  entropy : List ℚ
deriving DecidableEq, Repr

/-- `private spawnInterval = 0.5` (a constant of this variant). -/
def spawnInterval : ℚ := 1 / 2

/-- `const hitRadius = 3` in `checkHit`. -/
def hitRadius : ℚ := 3

/-- Pop one `Math.random()` draw off the entropy stream. -/
def popEntropy (e : List ℚ) : ℚ × List ℚ := (e.headD 0, e.tail)

/-- `loadAvatar(url)`, synchronous part of the promise executor: a cache
hit resolves to the cached image at once; a miss creates an `Image` and
sets its `src`, issuing one network request.  Returns the immediately
resolved image key (if any) and the new state. -/
def loadAvatar (st : PlayerTargets) (url : String) :
    Option String × PlayerTargets :=
  if url ∈ st.avatarCache then (some url, st)
  else (none, { st with requests := st.requests ++ [url] })

/-- The `img.onload` callback for `url` firing: `avatarCache.set(url, img)`. -/
def completeAvatarLoad (st : PlayerTargets) (url : String) : PlayerTargets :=
  if url ∈ st.avatarCache then st
  else { st with avatarCache := st.avatarCache ++ [url] }

/-- `preloadAvatars()`: request the first 50 players' avatars. -/
def preloadAvatars (st : PlayerTargets) : PlayerTargets :=
  (st.players.take 50).foldl (fun s p => (loadAvatar s p.profilePicture).2) st

/-- `setPlayers(players)`. -/
def setPlayers (st : PlayerTargets) (players : List Player) : PlayerTargets :=
  preloadAvatars { st with players := players }

/-- `start()`: reset targets, popups, cursor, spawn timer and game clock.
Note it only drops the pool's references; it does not touch the scene. -/
def start (st : PlayerTargets) : PlayerTargets :=
  { st with targets := [], namePopups := [], playerIndex := 0,
            spawnTimer := 0, gameTime := 0 }

/-- `spawnNamePopup(player, position)`: draw the popup canvas with the
palette `COLORS[player.color]`, sample the drift velocity from three
`Math.random()` draws, push the popup and add its sprite to the scene. -/
def spawnNamePopup (st : PlayerTargets) (player : Player) (position : Vec3) :
    PlayerTargets :=
  let d1 := popEntropy st.entropy
  let d2 := popEntropy d1.2
  let d3 := popEntropy d2.2
  let velocity : Vec3 :=
    ⟨(d1.1 - 1 / 2) * 3, 6 + d2.1 * 3, (d3.1 - 1 / 2) * 3⟩
  let popup : NamePopup :=
    { meshId := st.nextMeshId
      position := position
      scale := ⟨6, 3 / 2, 1⟩
      color := player.color
      name := player.name
      velocity := velocity
      lifetime := 3 / 2
      opacity := 1 }
  { st with entropy := d3.2
            nextMeshId := st.nextMeshId + 1
            namePopups := st.namePopups ++ [popup]
            scene := st.scene ++ [popup.meshId] }

/-- `spawnTarget()`: consume the player at the cursor, look its avatar up
in the cache, sample spawn position and velocity from the entropy stream
(the first two draws stand for `cos angle` and `sin angle`), push the
target, add its sprite to the scene, then fire-and-forget a `loadAvatar`
for the next unconsumed player. -/
def spawnTarget (st : PlayerTargets) : PlayerTargets :=
  match st.players.get? st.playerIndex with
  | none => st
  | some player =>
    let avatarImage :=
      if player.profilePicture ∈ st.avatarCache then some player.profilePicture
      else none
    let dca := popEntropy st.entropy
    let dsa := popEntropy dca.2
    let dr := popEntropy dsa.2
    let dz := popEntropy dr.2
    let dvx := popEntropy dz.2
    let dvy := popEntropy dvx.2
    let dvz := popEntropy dvy.2
    let spawnRadius := dr.1 * 12 + 5
    let position : Vec3 :=
      ⟨dca.1 * spawnRadius, dsa.1 * spawnRadius, -120 - dz.1 * 40⟩
    let velocity : Vec3 :=
      ⟨(dvx.1 - 1 / 2) * 5, (dvy.1 - 1 / 2) * 5, 12 + dvz.1 * 8⟩
    let target : Target :=
      { meshId := st.nextMeshId
        position := position
        player := player
        velocity := velocity
        alive := true
        avatarImage := avatarImage
        spawnTime := st.gameTime }
    let st1 : PlayerTargets :=
      { st with playerIndex := st.playerIndex + 1
                entropy := dvz.2
                nextMeshId := st.nextMeshId + 1
                targets := st.targets ++ [target]
                scene := st.scene ++ [target.meshId] }
    match st1.players.get? st1.playerIndex with
    | some next => (loadAvatar st1 next.profilePicture).2
    | none => st1

/-- One step of the target loop in `update`: a live target integrates
`position += velocity * delta` and is retired (alive := false, mesh removed
from the scene, no popup) when the new `z` exceeds 5. -/
def advanceTargets (delta : ℚ) : List Target → List ℕ → List Target × List ℕ
  | [], scene => ([], scene)
  | t :: rest, scene =>
    if t.alive then
      let p := t.position.add (t.velocity.smul delta)
      if 5 < p.z then
        let r := advanceTargets delta rest
          (scene.filter (fun m => decide ¬m = t.meshId))
        ({ t with position := p, alive := false } :: r.1, r.2)
      else
        let r := advanceTargets delta rest scene
        ({ t with position := p } :: r.1, r.2)
    else
      let r := advanceTargets delta rest scene
      (t :: r.1, r.2)

/-- The per-popup mutation of the popup loop in `update`. -/
def stepPopup (delta : ℚ) (p : NamePopup) : NamePopup :=
  { p with lifetime := p.lifetime - delta
           opacity := max 0 ((p.lifetime - delta) / (3 / 2))
           position := p.position.add (p.velocity.smul delta)
           scale := p.scale.smul (1 + delta * (3 / 10)) }

/-- The popup loop in `update`: every popup is stepped; popups whose
lifetime dropped to 0 or below are spliced out and their meshes removed
from the scene. -/
def advancePopups (delta : ℚ) (ps : List NamePopup) (scene : List ℕ) :
    List NamePopup × List ℕ :=
  let stepped := ps.map (stepPopup delta)
  (stepped.filter (fun p => decide ¬p.lifetime ≤ 0),
   scene.filter (fun m =>
     decide ¬(stepped.any (fun p => decide (p.lifetime ≤ 0) && p.meshId == m))))

/-- `update(delta)`: advance clocks, possibly spawn one target (timer
elapsed and unconsumed players remain, timer reset to 0 afterwards), then
run the target loop and the popup loop.  The freshly spawned target
participates in the target loop of the same call, as in the source. -/
def update (st : PlayerTargets) (delta : ℚ) : PlayerTargets :=
  let st0 := { st with gameTime := st.gameTime + delta,
                       spawnTimer := st.spawnTimer + delta }
  let st1 :=
    if spawnInterval ≤ st0.spawnTimer ∧ st0.playerIndex < st0.players.length
    then { spawnTarget st0 with spawnTimer := 0 }
    else st0
  let tr := advanceTargets delta st1.targets st1.scene
  let st2 := { st1 with targets := tr.1, scene := tr.2 }
  let pr := advancePopups delta st2.namePopups st2.scene
  { st2 with namePopups := pr.1, scene := pr.2 }

/-- Result record of `checkHit`. -/
structure HitResult where
  player : Player
  correct : Bool
deriving DecidableEq, Repr

/-- The qualifying test of the `checkHit` loop body on one target:
alive and within the hit radius (squared-distance form). -/
def hitPredB (pos : Vec3) (t : Target) : Bool :=
  t.alive && decide (Vec3.distSq t.position pos < hitRadius ^ 2)

/-- The `checkHit` scan: walk the pool in iteration order; at the first
qualifying target set its alive flag to false (the mutation of
`removeTarget` on the target object) and stop.  Returns the matched
target (pre-mutation) and the updated pool list. -/
def scanHit (pos : Vec3) : List Target → Option Target × List Target
  | [] => (none, [])
  | t :: rest =>
    if hitPredB pos t then
      (some t, { t with alive := false } :: rest)
    else
      let r := scanHit pos rest
      (r.1, t :: r.2)

/-- `checkHit(position, shotColor)`: scan for the first live target within
`hitRadius`; on a match, retire it via `removeTarget(target, true)` (alive
false, mesh removed from the scene, popup spawned with the target's own
player) and return the player plus the color-correctness flag; otherwise
return null with the state untouched. -/
def checkHit (st : PlayerTargets) (pos : Vec3) (shotColor : TargetColor) :
    Option HitResult × PlayerTargets :=
  match scanHit pos st.targets with
  | (none, _) => (none, st)
  | (some t, ts) =>
    let st1 : PlayerTargets :=
      { st with targets := ts
                scene := st.scene.filter (fun m => decide ¬m = t.meshId) }
    let st2 := spawnNamePopup st1 t.player t.position
    (some { player := t.player, correct := t.player.color == shotColor }, st2)

/-- Number of live targets in a pool list. -/
def aliveCountL (ts : List Target) : ℕ := (ts.filter (fun t => t.alive)).length

/-- Number of live targets of a state (`getAliveTargets().length`). -/
def aliveCount (st : PlayerTargets) : ℕ := aliveCountL st.targets

/-- The per-target effect of the target loop of `update`, as a pure
function: integrate, then retire on depth-threshold crossing. -/
def moveTarget (delta : ℚ) (t : Target) : Target :=
  if t.alive then
    let p := t.position.add (t.velocity.smul delta)
    if 5 < p.z then { t with position := p, alive := false }
    else { t with position := p }
  else t

/-- The spawn guard of `update st delta`, phrased on the pre-call state:
the accumulated timer reaches the interval and unconsumed players remain. -/
@[reducible]
def spawnCond (st : PlayerTargets) (delta : ℚ) : Prop :=
  spawnInterval ≤ st.spawnTimer + delta ∧ st.playerIndex < st.players.length

attribute [local semireducible] Rat.add Rat.mul Rat.sub Rat.inv

/-! ### Helper lemmas about the operations -/

theorem advanceTargets_fst (delta : ℚ) (ts : List Target) (sc : List ℕ) :
    (advanceTargets delta ts sc).1 = ts.map (moveTarget delta) := by
  induction ts generalizing sc with
  | nil => simp [advanceTargets]
  | cons t rest ih =>
    simp only [advanceTargets, moveTarget, List.map]
    by_cases ha : t.alive <;> simp only [ha, if_true, if_false]
    · by_cases hz : 5 < (t.position.add (t.velocity.smul delta)).z <;>
        simp [hz, ih]
    · simp [ih]

theorem advanceTargets_scene_subset (delta : ℚ) (ts : List Target)
    (sc : List ℕ) : ∀ m ∈ (advanceTargets delta ts sc).2, m ∈ sc := by
  induction ts generalizing sc with
  | nil => simp [advanceTargets]
  | cons t rest ih =>
    intro m hm
    simp only [advanceTargets] at hm
    by_cases ha : t.alive <;> simp only [ha, if_true, if_false] at hm
    · by_cases hz : 5 < (t.position.add (t.velocity.smul delta)).z <;>
        simp only [hz, if_true, if_false] at hm
      · have h1 := ih _ m hm
        exact (List.mem_filter.mp h1).1
      · exact ih _ m hm
    · exact ih _ m hm

theorem advanceTargets_removes (delta : ℚ) (ts : List Target) (sc : List ℕ)
    (t : Target) (ht : t ∈ ts) (ha : t.alive = true)
    (hz : 5 < (t.position.add (t.velocity.smul delta)).z) :
    t.meshId ∉ (advanceTargets delta ts sc).2 := by
  induction ts generalizing sc with
  | nil => cases ht
  | cons u rest ih =>
    rcases List.mem_cons.mp ht with h | h
    · subst h
      simp only [advanceTargets, ha, if_true, hz]
      intro hmem
      have h1 := advanceTargets_scene_subset delta rest _ _ hmem
      have h2 := (List.mem_filter.mp h1).2
      simp at h2
    · simp only [advanceTargets]
      by_cases hu : u.alive <;> simp only [hu, if_true, if_false]
      · by_cases huz : 5 < (u.position.add (u.velocity.smul delta)).z <;>
          simp only [huz, if_true, if_false]
        · exact ih _ h
        · exact ih _ h
      · exact ih _ h

theorem loadAvatar_targets (st : PlayerTargets) (url : String) :
    (loadAvatar st url).2.targets = st.targets ∧
    (loadAvatar st url).2.namePopups = st.namePopups ∧
    (loadAvatar st url).2.players = st.players ∧
    (loadAvatar st url).2.playerIndex = st.playerIndex ∧
    (loadAvatar st url).2.spawnTimer = st.spawnTimer ∧
    (loadAvatar st url).2.scene = st.scene := by
  unfold loadAvatar
  by_cases h : url ∈ st.avatarCache <;> simp [h]

theorem spawnTarget_fields (st : PlayerTargets) :
    (spawnTarget st).players = st.players ∧
    (spawnTarget st).spawnTimer = st.spawnTimer ∧
    (spawnTarget st).namePopups = st.namePopups := by
  unfold spawnTarget
  cases h : st.players.get? st.playerIndex with
  | none => simp
  | some p =>
    simp only
    cases h2 : st.players.get? (st.playerIndex + 1) with
    | none => simp
    | some q =>
      simp only [loadAvatar]
      by_cases hc : q.profilePicture ∈ st.avatarCache <;> simp [hc]

theorem spawnTarget_spawned (st : PlayerTargets)
    (h : st.playerIndex < st.players.length) :
    ∃ tNew : Target, (spawnTarget st).targets = st.targets ++ [tNew] ∧
      tNew.alive = true ∧
      (spawnTarget st).playerIndex = st.playerIndex + 1 := by
  unfold spawnTarget
  rcases List.get?_eq_get h with hg
  rw [hg]
  simp only
  cases h2 : st.players.get? (st.playerIndex + 1) with
  | none => exact ⟨_, rfl, rfl, rfl⟩
  | some q =>
    simp only [loadAvatar]
    by_cases hc : q.profilePicture ∈ st.avatarCache <;>
      simp only [hc, if_true, if_false] <;>
      exact ⟨_, rfl, by simp, by simp⟩

theorem update_targets_eq (st : PlayerTargets) (delta : ℚ) :
    (update st delta).targets =
      (if spawnCond st delta
       then (spawnTarget { st with gameTime := st.gameTime + delta,
                                   spawnTimer := st.spawnTimer + delta }).targets
       else st.targets).map (moveTarget delta) := by
  unfold update
  by_cases h : spawnCond st delta
  · simp only [h, and_self, if_true, advanceTargets_fst] <;> rw [if_pos h]
  · simp only [h, and_self, false_and, and_false, if_false,
      advanceTargets_fst] <;> rw [if_neg h]

theorem update_spawnTimer (st : PlayerTargets) (delta : ℚ) :
    (update st delta).spawnTimer =
      if spawnCond st delta then 0 else st.spawnTimer + delta := by
  unfold update
  by_cases h : spawnCond st delta
  · simp only [h, and_self, if_true] <;> rw [if_pos h]
  · simp only [h, and_self, false_and, and_false, if_false] <;> rw [if_neg h]

theorem update_playerIndex (st : PlayerTargets) (delta : ℚ) :
    (update st delta).playerIndex =
      if spawnCond st delta then st.playerIndex + 1 else st.playerIndex := by
  unfold update
  by_cases h : spawnCond st delta
  · simp only [h, and_self, if_true] <;> rw [if_pos h]
    exact (spawnTarget_spawned
      { st with gameTime := st.gameTime + delta,
                spawnTimer := st.spawnTimer + delta } h.2).choose_spec.2.2
  · simp only [h, and_self, false_and, and_false, if_false] <;> rw [if_neg h]

theorem update_players (st : PlayerTargets) (delta : ℚ) :
    (update st delta).players = st.players := by
  unfold update
  by_cases h : spawnCond st delta
  · simp only [h, and_self, if_true]
    exact (spawnTarget_fields _).1
  · simp only [h, and_self, false_and, and_false, if_false]

theorem update_namePopups_le (st : PlayerTargets) (delta : ℚ) :
    (update st delta).namePopups.length ≤ st.namePopups.length := by
  unfold update advancePopups
  by_cases h : spawnCond st delta <;>
    simp only [h, and_self, if_true, if_false]
  · calc ((((spawnTarget _).namePopups.map (stepPopup delta)).filter
            (fun p => decide ¬p.lifetime ≤ 0)).length)
        ≤ ((spawnTarget _).namePopups.map (stepPopup delta)).length :=
          List.length_filter_le _ _
      _ = st.namePopups.length := by
          rw [List.length_map, (spawnTarget_fields _).2.2]
  · calc (((st.namePopups.map (stepPopup delta)).filter
            (fun p => decide ¬p.lifetime ≤ 0)).length)
        ≤ (st.namePopups.map (stepPopup delta)).length :=
          List.length_filter_le _ _
      _ = st.namePopups.length := by rw [List.length_map]

theorem update_targets_length (st : PlayerTargets) (delta : ℚ) :
    (update st delta).targets.length =
      if spawnCond st delta then st.targets.length + 1
      else st.targets.length := by
  rw [update_targets_eq]
  by_cases h : spawnCond st delta
  · rw [if_pos h, if_pos h, List.length_map]
    obtain ⟨tNew, ht, -, -⟩ :=
      spawnTarget_spawned { st with gameTime := st.gameTime + delta,
                                    spawnTimer := st.spawnTimer + delta } h.2
    rw [ht, List.length_append]
    rfl
  · rw [if_neg h, if_neg h, List.length_map]

/-- A sequence of `advance(delta)` calls. -/
def advanceSeq (st : PlayerTargets) (deltas : List ℚ) : PlayerTargets :=
  deltas.foldl update st

theorem advanceSeq_targets_mono : ∀ (deltas : List ℚ) (st : PlayerTargets),
    st.targets.length ≤ (advanceSeq st deltas).targets.length := by
  intro deltas
  induction deltas with
  | nil => intro st; exact Nat.le_refl _
  | cons d rest ih =>
    intro st
    refine Nat.le_trans ?_ (ih (update st d))
    rw [update_targets_length]
    split <;> omega

theorem advanceSeq_spawns : ∀ (deltas : List ℚ) (st : PlayerTargets),
    deltas ≠ [] → st.playerIndex < st.players.length →
    spawnInterval ≤ st.spawnTimer + deltas.sum →
    st.targets.length < (advanceSeq st deltas).targets.length := by
  intro deltas
  induction deltas with
  | nil => intro st h; exact absurd rfl h
  | cons d rest ih =>
    intro st hne hidx hsum
    by_cases hc : spawnCond st d
    · have h1 : (update st d).targets.length = st.targets.length + 1 := by
        rw [update_targets_length, if_pos hc]
      have h2 := advanceSeq_targets_mono rest (update st d)
      show st.targets.length < (advanceSeq (update st d) rest).targets.length
      omega
    · cases rest with
      | nil =>
        exfalso
        apply hc
        refine ⟨?_, hidx⟩
        simp only [List.sum_cons, List.sum_nil, add_zero] at hsum
        exact hsum
      | cons e rest2 =>
        have hidx2 : (update st d).playerIndex < (update st d).players.length := by
          rw [update_playerIndex, if_neg hc, update_players]
          exact hidx
        have hsum2 : spawnInterval ≤
            (update st d).spawnTimer + (e :: rest2).sum := by
          rw [update_spawnTimer, if_neg hc]
          simp only [List.sum_cons] at hsum ⊢
          linarith
        have hlen : (update st d).targets.length = st.targets.length := by
          rw [update_targets_length, if_neg hc]
        have h4 := ih (update st d) (by simp) hidx2 hsum2
        show st.targets.length <
          (advanceSeq (update st d) (e :: rest2)).targets.length
        omega

/-! ### Lemmas about the hit scan -/

theorem scanHit_fst (pos : Vec3) (ts : List Target) :
    (scanHit pos ts).1 = ts.find? (hitPredB pos) := by
  induction ts with
  | nil => rfl
  | cons t rest ih =>
    simp only [scanHit, List.find?]
    by_cases h : hitPredB pos t <;> simp [h, ih]

theorem scanHit_none_snd (pos : Vec3) : ∀ ts : List Target,
    (scanHit pos ts).1 = none → (scanHit pos ts).2 = ts := by
  intro ts
  induction ts with
  | nil => intro; rfl
  | cons t rest ih =>
    intro h
    simp only [scanHit] at h ⊢
    by_cases hp : hitPredB pos t
    · simp [hp] at h
    · simp only [hp, if_false, Bool.false_eq_true] at h ⊢
      rw [ih h]

theorem scanHit_some_spec (pos : Vec3) : ∀ (ts : List Target) (t : Target),
    (scanHit pos ts).1 = some t →
    hitPredB pos t = true ∧
    ∃ i, ts.get? i = some t ∧
      (scanHit pos ts).2 = ts.set i { t with alive := false } := by
  intro ts
  induction ts with
  | nil => intro t h; simp [scanHit] at h
  | cons u rest ih =>
    intro t h
    simp only [scanHit] at h ⊢
    by_cases hp : hitPredB pos u
    · simp only [hp, if_true] at h ⊢
      injection h with h
      subst h
      exact ⟨hp, 0, rfl, rfl⟩
    · simp only [hp, if_false, Bool.false_eq_true] at h ⊢
      obtain ⟨hq, i, hg, hset⟩ := ih t h
      exact ⟨hq, i + 1, hg, by rw [hset]; rfl⟩

theorem hitPredB_alive {pos : Vec3} {t : Target} (h : hitPredB pos t = true) :
    t.alive = true ∧ Vec3.distSq t.position pos < hitRadius ^ 2 := by
  unfold hitPredB at h
  simp only [Bool.and_eq_true, decide_eq_true_eq] at h
  exact h

theorem checkHit_fst (st : PlayerTargets) (pos : Vec3) (c : TargetColor) :
    (checkHit st pos c).1 = (st.targets.find? (hitPredB pos)).map
      (fun t => { player := t.player, correct := t.player.color == c }) := by
  have hf := scanHit_fst pos st.targets
  unfold checkHit
  rcases hs : scanHit pos st.targets with ⟨o, ts2⟩
  rw [hs] at hf
  cases o with
  | none => simp [← hf]
  | some t => simp [← hf]

theorem checkHit_none_state (st : PlayerTargets) (pos : Vec3)
    (c : TargetColor) (h : (checkHit st pos c).1 = none) :
    (checkHit st pos c).2 = st := by
  unfold checkHit at h ⊢
  rcases hs : scanHit pos st.targets with ⟨o, ts2⟩
  rw [hs] at h
  cases o with
  | none => rfl
  | some t => simp at h

theorem checkHit_some_spec (st : PlayerTargets) (pos : Vec3) (c : TargetColor)
    (r : HitResult) (h : (checkHit st pos c).1 = some r) :
    ∃ i t, st.targets.get? i = some t ∧ t.alive = true ∧
      Vec3.distSq t.position pos < hitRadius ^ 2 ∧
      r = { player := t.player, correct := t.player.color == c } ∧
      (checkHit st pos c).2.targets = st.targets.set i { t with alive := false } ∧
      (checkHit st pos c).2.scene =
        (st.scene.filter (fun m => decide ¬m = t.meshId)) ++ [st.nextMeshId] ∧
      ∃ p, (checkHit st pos c).2.namePopups = st.namePopups ++ [p] ∧
        p.color = t.player.color ∧ p.name = t.player.name ∧
        p.position = t.position := by
  unfold checkHit at h ⊢
  rcases hs : scanHit pos st.targets with ⟨o, ts2⟩
  rw [hs] at h
  cases o with
  | none => simp at h
  | some t =>
    simp only [Option.some.injEq] at h
    obtain ⟨hq, i, hg, hset⟩ := scanHit_some_spec pos st.targets t
      (by rw [hs])
    rw [hs] at hset
    have hset2 : ts2 = st.targets.set i { t with alive := false } := hset
    obtain ⟨ha, hd⟩ := hitPredB_alive hq
    exact ⟨i, t, hg, ha, hd, h.symm, hset2, rfl,
      ⟨_, rfl, rfl, rfl, rfl⟩⟩

theorem moveTarget_dead {delta : ℚ} {t : Target} (h : t.alive = false) :
    moveTarget delta t = t := by
  unfold moveTarget
  simp [h]

theorem moveTarget_velocity (delta : ℚ) (t : Target) :
    (moveTarget delta t).velocity = t.velocity := by
  unfold moveTarget
  by_cases h : t.alive
  · by_cases h2 : 5 < (t.position.add (t.velocity.smul delta)).z <;>
      simp [h, h2]
  · simp [h]

theorem moveTarget_player (delta : ℚ) (t : Target) :
    (moveTarget delta t).player = t.player := by
  unfold moveTarget
  by_cases h : t.alive
  · by_cases h2 : 5 < (t.position.add (t.velocity.smul delta)).z <;>
      simp [h, h2]
  · simp [h]

theorem aliveCountL_cons (v : Target) (l : List Target) :
    aliveCountL (v :: l) = (if v.alive then 1 else 0) + aliveCountL l := by
  unfold aliveCountL
  by_cases hv : v.alive <;> simp [List.filter_cons, hv] <;> omega

theorem moveTarget_alive_pos (delta : ℚ) {t : Target} (h : t.alive = true) :
    (moveTarget delta t).position = t.position.add (t.velocity.smul delta) ∧
    ((moveTarget delta t).alive = false ↔
      5 < (t.position.add (t.velocity.smul delta)).z) := by
  unfold moveTarget
  by_cases h2 : 5 < (t.position.add (t.velocity.smul delta)).z <;>
    simp [h, h2]

theorem update_get_moveTarget (st : PlayerTargets) (delta : ℚ) (i : ℕ)
    (t : Target) (h : st.targets.get? i = some t) :
    (update st delta).targets.get? i = some (moveTarget delta t) := by
  have hlen : i < st.targets.length := by
    obtain ⟨hlt, -⟩ := List.get?_eq_some.mp h
    exact hlt
  rw [update_targets_eq]
  by_cases hc : spawnCond st delta
  · rw [if_pos hc]
    obtain ⟨tNew, ht, -, -⟩ :=
      spawnTarget_spawned { st with gameTime := st.gameTime + delta,
                                    spawnTimer := st.spawnTimer + delta } hc.2
    rw [ht, List.get?_map, List.get?_append hlen, h]
    rfl
  · rw [if_neg hc, List.get?_map, h]
    rfl

theorem aliveCountL_set_dead : ∀ (ts : List Target) (i : ℕ) (t : Target),
    ts.get? i = some t → t.alive = true →
    aliveCountL (ts.set i { t with alive := false }) + 1 = aliveCountL ts := by
  intro ts
  induction ts with
  | nil => intro i t h; simp at h
  | cons u rest ih =>
    intro i t h ha
    cases i with
    | zero =>
      injection h with h
      subst h
      simp only [List.set]
      rw [aliveCountL_cons, aliveCountL_cons]
      simp [ha]
      omega
    | succ n =>
      have h2 : rest.get? n = some t := h
      have ih2 := ih n t h2 ha
      simp only [List.set]
      rw [aliveCountL_cons, aliveCountL_cons]
      omega

theorem checkHit_aliveCount (st : PlayerTargets) (pos : Vec3)
    (c : TargetColor) :
    aliveCount (checkHit st pos c).2 +
      (if ((checkHit st pos c).1).isSome then 1 else 0) = aliveCount st := by
  cases hr : (checkHit st pos c).1 with
  | none =>
    rw [checkHit_none_state st pos c hr]
    simp
  | some r =>
    obtain ⟨i, t, hg, ha, -, -, hset, -, -⟩ := checkHit_some_spec st pos c r hr
    simp only [Option.isSome_some, if_true]
    unfold aliveCount
    rw [hset]
    exact aliveCountL_set_dead st.targets i t hg ha

theorem checkHit_dead_preserved (st : PlayerTargets) (pos : Vec3)
    (c : TargetColor) (i : ℕ) (t : Target) (h : st.targets.get? i = some t)
    (hd : t.alive = false) :
    (checkHit st pos c).2.targets.get? i = some t := by
  cases hr : (checkHit st pos c).1 with
  | none => rw [checkHit_none_state st pos c hr, h]
  | some r =>
    obtain ⟨j, u, hgj, hau, -, -, hset, -, -⟩ := checkHit_some_spec st pos c r hr
    rw [hset]
    have hij : j ≠ i := by
      intro he
      subst he
      rw [h] at hgj
      injection hgj with hgj
      rw [hgj] at hd
      rw [hd] at hau
      cases hau
    rw [List.get?_set_ne _ _ hij, h]

theorem advancePopups_scene_subset (delta : ℚ) (ps : List NamePopup)
    (sc : List ℕ) : ∀ m ∈ (advancePopups delta ps sc).2, m ∈ sc := by
  intro m hm
  unfold advancePopups at hm
  exact (List.mem_filter.mp hm).1

theorem update_miss_scene (st : PlayerTargets) (delta : ℚ) (t : Target)
    (ht : t ∈ st.targets) (ha : t.alive = true)
    (hz : 5 < (t.position.add (t.velocity.smul delta)).z) :
    t.meshId ∉ (update st delta).scene := by
  intro hmem
  unfold update at hmem
  by_cases h : spawnCond st delta
  · simp only [h, and_self, if_true] at hmem
    have h1 := advancePopups_scene_subset _ _ _ _ hmem
    have h2 : t ∈ (spawnTarget { st with gameTime := st.gameTime + delta,
                                          spawnTimer := st.spawnTimer + delta }).targets := by
      obtain ⟨tNew, htn, -, -⟩ :=
        spawnTarget_spawned { st with gameTime := st.gameTime + delta,
                                      spawnTimer := st.spawnTimer + delta } h.2
      rw [htn]
      exact List.mem_append_left _ ht
    exact advanceTargets_removes delta _ _ t h2 ha hz h1
  · simp only [h, and_self, false_and, and_false, if_false] at hmem
    have h1 := advancePopups_scene_subset _ _ _ _ hmem
    exact advanceTargets_removes delta _ _ t ht ha hz h1

/-! ### Concrete fixtures used by witnesses and counterexamples -/

/-- A red sample player. -/
def samplePlayerA : Player :=
  { name := "A", rank := 1, country := "US", pp := "100", countryRank := 1,
    profilePicture := "urlA", color := TargetColor.red }

/-- A blue sample player. -/
def samplePlayerB : Player :=
  { samplePlayerA with
      name := "B", profilePicture := "urlB", color := TargetColor.blue }

/-- A second red sample player. -/
def samplePlayerC : Player :=
  { samplePlayerA with name := "C", profilePicture := "urlC" }

/-- A pool with every field at its TS field initializer. -/
def emptyPool : PlayerTargets :=
  { players := [], targets := [], namePopups := [], avatarCache := [],
    requests := [], spawnTimer := 0, playerIndex := 0, gameTime := 0,
    scene := [], nextMeshId := 0, entropy := [] }

/-- A live target of player A at Euclidean distance 2.9 from the origin. -/
def targetAt29 : Target :=
  { meshId := 0, position := ⟨29 / 10, 0, 0⟩, player := samplePlayerA,
    velocity := ⟨0, 0, 12⟩, alive := true, avatarImage := none,
    spawnTime := 0 }

/-- Pool holding only `targetAt29`. -/
def poolAt29 : PlayerTargets :=
  { emptyPool with targets := [targetAt29], scene := [0], nextMeshId := 1 }

/-- The same target moved to distance 3.1 from the origin. -/
def targetAt31 : Target := { targetAt29 with position := ⟨31 / 10, 0, 0⟩ }

/-- Pool holding only `targetAt31`. -/
def poolAt31 : PlayerTargets :=
  { emptyPool with targets := [targetAt31], scene := [0], nextMeshId := 1 }

/-- A live target 0.1 before the pass-camera depth threshold (z = 4.9)
with forward velocity 20. -/
def targetNearPass : Target :=
  { meshId := 0, position := ⟨0, 0, 49 / 10⟩, player := samplePlayerA,
    velocity := ⟨0, 0, 20⟩, alive := true, avatarImage := none,
    spawnTime := 0 }

/-- Pool holding only `targetNearPass`, with no players left to spawn. -/
def poolNearPass : PlayerTargets :=
  { emptyPool with targets := [targetNearPass], scene := [0], nextMeshId := 1 }

/-- Two live targets, both within the hit radius of the origin. -/
def targetNear0 : Target :=
  { meshId := 0, position := ⟨0, 0, 0⟩, player := samplePlayerA,
    velocity := ⟨0, 0, 12⟩, alive := true, avatarImage := none,
    spawnTime := 0 }

/-- Second target close to the origin, owned by the blue player. -/
def targetNear1 : Target :=
  { meshId := 1, position := ⟨1, 0, 0⟩, player := samplePlayerB,
    velocity := ⟨0, 0, 12⟩, alive := true, avatarImage := none,
    spawnTime := 0 }

/-- Pool with both near-origin targets. -/
def poolTwoNear : PlayerTargets :=
  { emptyPool with
      targets := [targetNear0, targetNear1], scene := [0, 1],
      nextMeshId := 2 }

/-- A popup alive in the pool. -/
def samplePopup : NamePopup :=
  { meshId := 1, position := ⟨0, 0, 0⟩, scale := ⟨6, 3 / 2, 1⟩,
    color := TargetColor.red, name := "A", velocity := ⟨0, 6, 0⟩,
    lifetime := 1, opacity := 1 }

/-- A mid-session pool: one live target, one popup, both with meshes in
the scene, cursor and clocks advanced. -/
def poolMidSession : PlayerTargets :=
  { emptyPool with
      targets := [targetNear0], namePopups := [samplePopup],
      scene := [0, 1], nextMeshId := 2, spawnTimer := 1 / 4, playerIndex := 1,
      gameTime := 2 }

/-- A configured-and-started pool with three players. -/
def pool3 : PlayerTargets :=
  start (setPlayers emptyPool [samplePlayerA, samplePlayerB, samplePlayerC])

/-- `pool3` after three `advance(0.5)` calls. -/
def pool3after3 : PlayerTargets :=
  update (update (update pool3 (1 / 2)) (1 / 2)) (1 / 2)

/-! ### Claim theorems -/

theorem hitPredB_iff_sqrt (pos : Vec3) (t : Target) :
    hitPredB pos t = true ↔
      (t.alive = true ∧
        Real.sqrt ((Vec3.distSq t.position pos : ℚ) : ℝ) < 3) := by
  unfold hitPredB
  simp only [Bool.and_eq_true, decide_eq_true_eq]
  constructor
  · rintro ⟨h1, h2⟩
    refine ⟨h1, ?_⟩
    rw [Real.sqrt_lt' (by norm_num : (0 : ℝ) < 3)]
    have h3 : ((Vec3.distSq t.position pos : ℚ) : ℝ) <
        ((hitRadius ^ 2 : ℚ) : ℝ) := by exact_mod_cast h2
    have h4 : ((hitRadius ^ 2 : ℚ) : ℝ) = 3 ^ 2 := by norm_num [hitRadius]
    linarith
  · rintro ⟨h1, h2⟩
    refine ⟨h1, ?_⟩
    rw [Real.sqrt_lt' (by norm_num : (0 : ℝ) < 3)] at h2
    have h4 : ((hitRadius ^ 2 : ℚ) : ℝ) = 3 ^ 2 := by norm_num [hitRadius]
    have h3 : ((Vec3.distSq t.position pos : ℚ) : ℝ) <
        ((hitRadius ^ 2 : ℚ) : ℝ) := by linarith
    exact_mod_cast h3

/-- C1: per `advance` call at most one target spawns regardless of delta;
a call on which the accumulated timer reaches the interval with unconsumed
players spawns exactly one and resets the spawn timer to 0; and any
nonempty sequence of `advance` calls whose deltas sum to at least the
spawn interval, started with a nonnegative timer and unconsumed players
remaining, spawns at least one target. -/
theorem c1_spawn_rate (st : PlayerTargets) (delta : ℚ) :
    ((update st delta).targets.length ≤ st.targets.length + 1) ∧
    (spawnCond st delta →
      (update st delta).targets.length = st.targets.length + 1 ∧
      (update st delta).spawnTimer = 0) ∧
    (∀ deltas : List ℚ, deltas ≠ [] → 0 ≤ st.spawnTimer →
      st.playerIndex < st.players.length → spawnInterval ≤ deltas.sum →
      st.targets.length < (advanceSeq st deltas).targets.length) := by
  refine ⟨?_, ?_, ?_⟩
  · rw [update_targets_length]
    split <;> omega
  · intro h
    rw [update_targets_length, if_pos h, update_spawnTimer, if_pos h]
    exact ⟨rfl, rfl⟩
  · intro deltas hne ht hidx hsum
    refine advanceSeq_spawns deltas st hne hidx ?_
    linarith

/-- Witness for C1: the configured three-player pool spawns exactly once
on `advance(0.5)` with the timer reset, and over the sequence `[0.5]`. -/
theorem c1_spawn_rate_witness :
    spawnCond pool3 (1 / 2) ∧
    ((update pool3 (1 / 2)).targets.length = pool3.targets.length + 1 ∧
      (update pool3 (1 / 2)).spawnTimer = 0) ∧
    pool3.targets.length < (advanceSeq pool3 [1 / 2]).targets.length :=
  ⟨by decide, (c1_spawn_rate pool3 (1 / 2)).2.1 (by decide),
    (c1_spawn_rate pool3 (1 / 2)).2.2 [1 / 2] (by decide) (by decide)
      (by decide) (by decide)⟩

/-- C2: the proximity resolver returns the first live target in pool
iteration order whose Euclidean distance to the query position is strictly
below the hit radius 3 (no distance sorting), null when none qualifies;
concretely a color-matching target at distance 2.9 yields
`{player, correct := true}` and the same target at distance 3.1 yields
null. -/
theorem c2_proximity_select :
    (∀ (st : PlayerTargets) (pos : Vec3) (c : TargetColor),
      (checkHit st pos c).1 = (st.targets.find? (hitPredB pos)).map
        (fun t => { player := t.player, correct := t.player.color == c })) ∧
    (∀ (pos : Vec3) (t : Target), hitPredB pos t = true ↔
      (t.alive = true ∧
        Real.sqrt ((Vec3.distSq t.position pos : ℚ) : ℝ) < 3)) ∧
    (checkHit poolAt29 ⟨0, 0, 0⟩ TargetColor.red).1 =
      some { player := samplePlayerA, correct := true } ∧
    (checkHit poolAt31 ⟨0, 0, 0⟩ TargetColor.red).1 = none :=
  ⟨checkHit_fst, hitPredB_iff_sqrt, by decide, by decide⟩

/-- C5 counterexample: `start()` discards the pool's targets and popups
but does **not** remove their visuals: the meshes of the live target and
of the popup are still in the scene after `start()`. -/
theorem c5_counterexample :
    poolMidSession.targets = [targetNear0] ∧ targetNear0.alive = true ∧
    targetNear0.meshId ∈ poolMidSession.scene ∧
    samplePopup.meshId ∈ poolMidSession.scene ∧
    (start poolMidSession).targets = [] ∧
    (start poolMidSession).namePopups = [] ∧
    targetNear0.meshId ∈ (start poolMidSession).scene ∧
    samplePopup.meshId ∈ (start poolMidSession).scene := by
  decide

/-- C5 (amended): `start()` is idempotent and fully resets the pool state
(live-target count 0, cursor 0, spawn timer 0, game clock 0, targets and
popups discarded from the pool) from any prior state, but the visuals of
previously live targets and popups are left in the scene untouched. -/
theorem c5_start_resets (st : PlayerTargets) :
    start (start st) = start st ∧
    (start st).targets = [] ∧ aliveCount (start st) = 0 ∧
    (start st).namePopups = [] ∧ (start st).playerIndex = 0 ∧
    (start st).spawnTimer = 0 ∧ (start st).gameTime = 0 ∧
    (start st).scene = st.scene :=
  ⟨rfl, rfl, rfl, rfl, rfl, rfl, rfl, rfl⟩

/-- C8 counterexample: two `loadAvatar` calls for the same URL issued
before the first load completes each create an `Image` and set its `src`:
two network requests for one URL. -/
theorem c8_counterexample :
    emptyPool.requests = [] ∧ emptyPool.avatarCache = [] ∧
    (loadAvatar (loadAvatar emptyPool "u").2 "u").2.requests = ["u", "u"] := by
  decide

/-- C8 (amended): once a URL's image load has completed and is cached,
`loadAvatar` for that URL resolves to the cached image and leaves the
state unchanged (no new network request); but before completion each
duplicate call issues its own network request (no pending-entry
deduplication). -/
theorem c8_cache_idempotent (st : PlayerTargets) (url : String) :
    (url ∈ st.avatarCache → loadAvatar st url = (some url, st)) ∧
    (loadAvatar (completeAvatarLoad st url) url =
      (some url, completeAvatarLoad st url)) ∧
    (url ∉ st.avatarCache →
      (loadAvatar st url).2.requests = st.requests ++ [url]) := by
  refine ⟨?_, ?_, ?_⟩
  · intro h
    unfold loadAvatar
    rw [if_pos h]
  · have h : url ∈ (completeAvatarLoad st url).avatarCache := by
      unfold completeAvatarLoad
      by_cases hc : url ∈ st.avatarCache
      · rw [if_pos hc]; exact hc
      · rw [if_neg hc]; simp
    unfold loadAvatar
    rw [if_pos h]
  · intro h
    unfold loadAvatar
    rw [if_neg h]

/-- Witness for C8 (amended) at the concrete URL "u". -/
theorem c8_cache_idempotent_witness :
    "u" ∈ (completeAvatarLoad emptyPool "u").avatarCache ∧
    loadAvatar (completeAvatarLoad emptyPool "u") "u" =
      (some "u", completeAvatarLoad emptyPool "u") ∧
    ("u" ∉ emptyPool.avatarCache ∧
      (loadAvatar emptyPool "u").2.requests = emptyPool.requests ++ ["u"]) :=
  ⟨by decide,
    (c8_cache_idempotent (completeAvatarLoad emptyPool "u") "u").1 (by decide),
    by decide, (c8_cache_idempotent emptyPool "u").2.2 (by decide)⟩

/-- C9: once the consumption cursor has reached the end of the player
list, `advance` spawns nothing (and moves no cursor) — not an error;
concretely three `advance(0.5)` calls on a three-player pool spawn exactly
3 targets and exhaust the cursor, and a fourth spawns nothing. -/
theorem c9_exhaustion :
    (∀ (st : PlayerTargets) (delta : ℚ),
      st.players.length ≤ st.playerIndex →
      (update st delta).targets.length = st.targets.length ∧
      (update st delta).playerIndex = st.playerIndex) ∧
    (pool3.players.length = 3 ∧ pool3after3.targets.length = 3 ∧
      pool3after3.playerIndex = 3 ∧
      (update pool3after3 (1 / 2)).targets.length = 3 ∧
      (update pool3after3 (1 / 2)).playerIndex = 3) := by
  constructor
  · intro st delta h
    have hnc : ¬spawnCond st delta := fun hc => (Nat.not_lt.mpr h) hc.2
    rw [update_targets_length, if_neg hnc, update_playerIndex, if_neg hnc]
    exact ⟨rfl, rfl⟩
  · exact ⟨by decide, by decide, by decide, by decide, by decide⟩

/-- Witness for C9 at the exhausted three-player pool. -/
theorem c9_exhaustion_witness :
    pool3after3.players.length ≤ pool3after3.playerIndex ∧
    ((update pool3after3 (1 / 2)).targets.length =
        pool3after3.targets.length ∧
      (update pool3after3 (1 / 2)).playerIndex = pool3after3.playerIndex) :=
  ⟨by decide, c9_exhaustion.1 pool3after3 (1 / 2) (by decide)⟩

/-- C10: when the proximity resolver returns null, the whole pool state —
targets (alive flags and positions), popups, scene, cursor, spawn timer,
everything — is unchanged. -/
theorem c10_null_pure (st : PlayerTargets) (pos : Vec3) (c : TargetColor)
    (h : (checkHit st pos c).1 = none) :
    (checkHit st pos c).2 = st :=
  checkHit_none_state st pos c h

/-- Witness for C10 at the distance-3.1 pool. -/
theorem c10_null_pure_witness :
    (checkHit poolAt31 ⟨0, 0, 0⟩ TargetColor.red).1 = none ∧
    (checkHit poolAt31 ⟨0, 0, 0⟩ TargetColor.red).2 = poolAt31 :=
  ⟨by decide, c10_null_pure poolAt31 ⟨0, 0, 0⟩ TargetColor.red (by decide)⟩

/-- C3: whenever the proximity resolver matches a target it retires it
(alive := false, mesh removed from the scene) regardless of whether the
query color matched, returns the matched player with
`correct = (target color == query color)`, and the popup it spawns carries
the target player's own color (and name and position), never the
query's color. -/
theorem c3_match_retires (st : PlayerTargets) (pos : Vec3) (c : TargetColor)
    (r : HitResult) (h : (checkHit st pos c).1 = some r) :
    ∃ i t, st.targets.get? i = some t ∧ t.alive = true ∧
      r.player = t.player ∧ r.correct = (t.player.color == c) ∧
      (checkHit st pos c).2.targets =
        st.targets.set i { t with alive := false } ∧
      (checkHit st pos c).2.scene =
        (st.scene.filter (fun m => decide ¬m = t.meshId)) ++
          [st.nextMeshId] ∧
      ∃ p, (checkHit st pos c).2.namePopups = st.namePopups ++ [p] ∧
        p.color = t.player.color ∧ p.name = t.player.name ∧
        p.position = t.position := by
  obtain ⟨i, t, hg, ha, -, hr, hset, hsc, hp⟩ := checkHit_some_spec st pos c r h
  exact ⟨i, t, hg, ha, by rw [hr], by rw [hr], hset, hsc, hp⟩

/-- Witness for C3: a wrong-color hit (blue query on the red target at
distance 2.9) still retires the target, reports `correct = false`, and
spawns a popup with the target's own (red) color. -/
theorem c3_match_retires_witness :
    (checkHit poolAt29 ⟨0, 0, 0⟩ TargetColor.blue).1 =
      some { player := samplePlayerA, correct := false } ∧
    ∃ i t, poolAt29.targets.get? i = some t ∧ t.alive = true ∧
      ({ player := samplePlayerA, correct := false } : HitResult).player =
        t.player ∧
      ({ player := samplePlayerA, correct := false } : HitResult).correct =
        (t.player.color == TargetColor.blue) ∧
      (checkHit poolAt29 ⟨0, 0, 0⟩ TargetColor.blue).2.targets =
        poolAt29.targets.set i { t with alive := false } ∧
      (checkHit poolAt29 ⟨0, 0, 0⟩ TargetColor.blue).2.scene =
        (poolAt29.scene.filter (fun m => decide ¬m = t.meshId)) ++
          [poolAt29.nextMeshId] ∧
      ∃ p, (checkHit poolAt29 ⟨0, 0, 0⟩ TargetColor.blue).2.namePopups =
          poolAt29.namePopups ++ [p] ∧
        p.color = t.player.color ∧ p.name = t.player.name ∧
        p.position = t.position :=
  ⟨by decide, c3_match_retires poolAt29 ⟨0, 0, 0⟩ TargetColor.blue
    { player := samplePlayerA, correct := false } (by decide)⟩

/-- C4: each resolver call retires at most one target (alive count drops
by exactly the match indicator); a match flips exactly one entry from
alive to dead; dead entries are preserved untouched by both the resolver
and `advance`; and a second call in the same frame with the same query
matches (and hence retires) a different entry than the first. -/
theorem c4_retire_once (st : PlayerTargets) (pos : Vec3) (c : TargetColor) :
    (aliveCount (checkHit st pos c).2 +
      (if ((checkHit st pos c).1).isSome then 1 else 0) = aliveCount st) ∧
    (∀ r, (checkHit st pos c).1 = some r →
      ∃ i t, st.targets.get? i = some t ∧ t.alive = true ∧
        (checkHit st pos c).2.targets =
          st.targets.set i { t with alive := false }) ∧
    (∀ i t, st.targets.get? i = some t → t.alive = false →
      (checkHit st pos c).2.targets.get? i = some t ∧
      ∀ delta, (update st delta).targets.get? i = some t) ∧
    (∀ i t r2, st.targets.get? i = some t → t.alive = true →
      (checkHit st pos c).2.targets =
        st.targets.set i { t with alive := false } →
      (checkHit (checkHit st pos c).2 pos c).1 = some r2 →
      ∃ j u, ¬j = i ∧ (checkHit st pos c).2.targets.get? j = some u ∧
        u.alive = true ∧ r2.player = u.player) := by
  refine ⟨checkHit_aliveCount st pos c, ?_, ?_, ?_⟩
  · intro r hr
    obtain ⟨i, t, hg, ha, -, -, hset, -, -⟩ := checkHit_some_spec st pos c r hr
    exact ⟨i, t, hg, ha, hset⟩
  · intro i t hg hd
    refine ⟨checkHit_dead_preserved st pos c i t hg hd, ?_⟩
    intro delta
    rw [update_get_moveTarget st delta i t hg, moveTarget_dead hd]
  · intro i t r2 hg ha hset hr2
    obtain ⟨j, u, hgj, hau, -, hr2eq, -, -, -⟩ :=
      checkHit_some_spec (checkHit st pos c).2 pos c r2 hr2
    refine ⟨j, u, ?_, hgj, hau, by rw [hr2eq]⟩
    intro he
    subst he
    have hlen : j < st.targets.length := by
      obtain ⟨hlt, -⟩ := List.get?_eq_some.mp hg
      exact hlt
    rw [hset, List.get?_set_eq_of_lt _ hlen] at hgj
    injection hgj with hgj
    rw [← hgj] at hau
    simp at hau

/-- Witness for C4: with two targets inside the hit radius, the first call
retires entry 0 and the second call in the same frame with the same query
matches entry 1, not entry 0 again. -/
theorem c4_retire_once_witness :
    poolTwoNear.targets.get? 0 = some targetNear0 ∧
    targetNear0.alive = true ∧
    (checkHit poolTwoNear ⟨0, 0, 0⟩ TargetColor.red).2.targets =
      poolTwoNear.targets.set 0 { targetNear0 with alive := false } ∧
    (checkHit (checkHit poolTwoNear ⟨0, 0, 0⟩ TargetColor.red).2 ⟨0, 0, 0⟩
        TargetColor.red).1 =
      some { player := samplePlayerB, correct := false } ∧
    ∃ j u, ¬j = 0 ∧
      (checkHit poolTwoNear ⟨0, 0, 0⟩ TargetColor.red).2.targets.get? j =
        some u ∧ u.alive = true ∧
      ({ player := samplePlayerB, correct := false } : HitResult).player =
        u.player :=
  ⟨by decide, by decide, by decide, by decide,
    (c4_retire_once poolTwoNear ⟨0, 0, 0⟩ TargetColor.red).2.2.2 0 targetNear0
      { player := samplePlayerB, correct := false } (by decide) (by decide)
      (by decide) (by decide)⟩

/-- C6: over one `advance(delta)`, every live target's position becomes
exactly old position + velocity × delta (and it is then retired exactly
when the new depth exceeds the pass threshold), dead targets are left
untouched, and no operation — neither `advance` nor the resolver — ever
changes a target's velocity after spawn. -/
theorem c6_integration (st : PlayerTargets) (delta : ℚ) :
    (∀ i t, st.targets.get? i = some t →
      ∃ t2, (update st delta).targets.get? i = some t2 ∧
        t2.velocity = t.velocity ∧ t2.player = t.player ∧
        (t.alive = true →
          t2.position = t.position.add (t.velocity.smul delta) ∧
          (t2.alive = false ↔ 5 < t2.position.z)) ∧
        (t.alive = false → t2 = t)) ∧
    (∀ (pos : Vec3) (c : TargetColor) i t, st.targets.get? i = some t →
      ∃ t2, (checkHit st pos c).2.targets.get? i = some t2 ∧
        t2.velocity = t.velocity ∧ t2.position = t.position) := by
  constructor
  · intro i t hg
    refine ⟨moveTarget delta t, update_get_moveTarget st delta i t hg,
      moveTarget_velocity delta t, moveTarget_player delta t, ?_, ?_⟩
    · intro ha
      obtain ⟨hpos, hal⟩ := moveTarget_alive_pos delta ha
      exact ⟨hpos, by rw [hpos]; exact hal⟩
    · intro hd
      exact moveTarget_dead hd
  · intro pos c i t hg
    cases hr : (checkHit st pos c).1 with
    | none =>
      rw [checkHit_none_state st pos c hr]
      exact ⟨t, hg, rfl, rfl⟩
    | some r =>
      obtain ⟨j, u, hgj, -, -, -, hset, -, -⟩ := checkHit_some_spec st pos c r hr
      by_cases hij : j = i
      · subst hij
        have hlen : j < st.targets.length := by
          obtain ⟨hlt, -⟩ := List.get?_eq_some.mp hgj
          exact hlt
        rw [hg] at hgj
        injection hgj with hgj
        subst hgj
        refine ⟨{ t with alive := false }, ?_, rfl, rfl⟩
        rw [hset, List.get?_set_eq_of_lt _ hlen]
      · refine ⟨t, ?_, rfl, rfl⟩
        rw [hset, List.get?_set_ne _ _ hij, hg]

/-- Witness for C6: the live target at distance 2.9 integrates exactly and
keeps its velocity through both `advance(0.1)` and a resolver call. -/
theorem c6_integration_witness :
    poolAt29.targets.get? 0 = some targetAt29 ∧
    (∃ t2, (update poolAt29 (1 / 10)).targets.get? 0 = some t2 ∧
      t2.velocity = targetAt29.velocity ∧ t2.player = targetAt29.player ∧
      (targetAt29.alive = true →
        t2.position =
          targetAt29.position.add (targetAt29.velocity.smul (1 / 10)) ∧
        (t2.alive = false ↔ 5 < t2.position.z)) ∧
      (targetAt29.alive = false → t2 = targetAt29)) ∧
    (∃ t2, (checkHit poolAt29 ⟨0, 0, 0⟩
        TargetColor.red).2.targets.get? 0 = some t2 ∧
      t2.velocity = targetAt29.velocity ∧
      t2.position = targetAt29.position) :=
  ⟨by decide, (c6_integration poolAt29 (1 / 10)).1 0 targetAt29 (by decide),
    (c6_integration poolAt29 (1 / 10)).2 ⟨0, 0, 0⟩ TargetColor.red 0
      targetAt29 (by decide)⟩

/-- C7: a live target whose depth crosses the pass-camera threshold during
`advance` is retired as a miss — marked dead, its mesh removed from the
scene, and no popup spawned; concretely the target 0.1 before the
boundary with forward velocity 20 is gone after `advance(1.0)`: alive
count drops from 1 to 0, no popup exists, the scene is emptied. -/
theorem c7_miss_retire :
    (∀ (st : PlayerTargets) (delta : ℚ) (i : ℕ) (t : Target),
      st.targets.get? i = some t → t.alive = true →
      5 < (t.position.add (t.velocity.smul delta)).z →
      (∃ t2, (update st delta).targets.get? i = some t2 ∧
        t2.alive = false) ∧
      t.meshId ∉ (update st delta).scene ∧
      (update st delta).namePopups.length ≤ st.namePopups.length) ∧
    (aliveCount poolNearPass = 1 ∧ aliveCount (update poolNearPass 1) = 0 ∧
      (update poolNearPass 1).namePopups = [] ∧
      (update poolNearPass 1).scene = []) := by
  constructor
  · intro st delta i t hg ha hz
    refine ⟨⟨moveTarget delta t, update_get_moveTarget st delta i t hg, ?_⟩,
      update_miss_scene st delta t (List.get?_mem hg) ha hz,
      update_namePopups_le st delta⟩
    exact (moveTarget_alive_pos delta ha).2.mpr hz
  · exact ⟨by decide, by decide, by decide, by decide⟩

/-- Witness for C7 at the near-pass target with `advance(1.0)`. -/
theorem c7_miss_retire_witness :
    poolNearPass.targets.get? 0 = some targetNearPass ∧
    targetNearPass.alive = true ∧
    5 < (targetNearPass.position.add (targetNearPass.velocity.smul 1)).z ∧
    ((∃ t2, (update poolNearPass 1).targets.get? 0 = some t2 ∧
        t2.alive = false) ∧
      targetNearPass.meshId ∉ (update poolNearPass 1).scene ∧
      (update poolNearPass 1).namePopups.length ≤
        poolNearPass.namePopups.length) :=
  ⟨by decide, by decide, by decide,
    c7_miss_retire.1 poolNearPass 1 0 targetNearPass (by decide) (by decide)
      (by decide)⟩

end SSCredits
